import Mathlib

/-!
Verification of `ext/pango/gstepochoverlay.c` from gst-plugins-base (epoch
overlay element): a shallow embedding of the element's text-generation
callback, class initialization, instance initialization and property
handlers, together with theorems settling the specification's claims.
-/

set_option autoImplicit false

namespace EpochOverlay

/-! ## Machine-integer and decimal-formatting model

`gst_epoch_overlay_get_text` stores the clock reading in an
`unsigned long long` (64 bits on every platform this element targets) and
prints it with `sprintf(buf, "%" PRIu64, micro)`.  The formatter is
embedded as `natToDecimal`, a least-significant-digit-first digit list
(fuel-structured so it computes by `decide`) that is then reversed. -/

/-- 2^64, the modulus of `unsigned long long` / `uint64_t` arithmetic. -/
def UINT64_SIZE : Nat := 18446744073709551616

/-- Digits of `n` in base 10, least significant first; `fuel` bounds the
recursion (any `fuel ≥ n` is enough) so the definition is structural and
computable by kernel reduction. -/
def natDigitsRevAux : Nat → Nat → List Char
  | _, 0 => []
  | 0, _ + 1 => []
  | fuel + 1, n + 1 =>
      Nat.digitChar ((n + 1) % 10) :: natDigitsRevAux fuel ((n + 1) / 10)

/-- Model of `sprintf` with format `"%" PRIu64`: the decimal numeral of `n`
in ASCII digits, no leading zeros, with the single digit `"0"` for zero. -/
def natToDecimal (n : Nat) : String :=
  if n = 0 then "0" else ⟨(natDigitsRevAux n n).reverse⟩

/-- Numeric value of a most-significant-digit-first ASCII digit list. -/
def parseDecimal (cs : List Char) : Nat :=
  cs.foldl (fun acc c => acc * 10 + (c.toNat - 48)) 0

theorem digitChar_val_of_lt_ten : ∀ d : Nat, d < 10 →
    (Nat.digitChar d).toNat - 48 = d := by decide

theorem digitChar_isDigit_of_lt_ten : ∀ d : Nat, d < 10 →
    (Nat.digitChar d).isDigit = true := by decide

theorem digitChar_ne_zero_char : ∀ d : Nat, d < 10 → 0 < d →
    Nat.digitChar d ≠ '0' := by decide

theorem natDigitsRevAux_zero (fuel : Nat) : natDigitsRevAux fuel 0 = [] := by
  cases fuel <;> rfl

theorem natDigitsRevAux_foldr (fuel : Nat) : ∀ n : Nat, n ≤ fuel →
    (natDigitsRevAux fuel n).foldr (fun c acc => acc * 10 + (c.toNat - 48)) 0 = n := by
  induction fuel with
  | zero =>
      intro n hn
      interval_cases n
      simp [natDigitsRevAux]
  | succ f ih =>
      intro n hn
      match n with
      | 0 => simp [natDigitsRevAux]
      | m + 1 =>
          have hdiv : (m + 1) / 10 ≤ f := by
            have h1 : (m + 1) / 10 < m + 1 := Nat.div_lt_self (Nat.succ_pos m) (by omega)
            omega
          have hmod : (m + 1) % 10 < 10 := Nat.mod_lt _ (by omega)
          simp only [natDigitsRevAux, List.foldr_cons, ih _ hdiv,
            digitChar_val_of_lt_ten _ hmod]
          have := Nat.div_add_mod (m + 1) 10
          omega

theorem natDigitsRevAux_digits (fuel : Nat) : ∀ n : Nat,
    ∀ c ∈ natDigitsRevAux fuel n, c.isDigit = true := by
  induction fuel with
  | zero =>
      intro n c hc
      cases n <;> simp [natDigitsRevAux] at hc
  | succ f ih =>
      intro n c hc
      match n with
      | 0 => simp [natDigitsRevAux] at hc
      | m + 1 =>
          simp only [natDigitsRevAux, List.mem_cons] at hc
          rcases hc with hc | hc
          · subst hc
            exact digitChar_isDigit_of_lt_ten _ (Nat.mod_lt _ (by omega))
          · exact ih _ c hc

theorem natDigitsRevAux_ne_nil (fuel n : Nat) (hpos : 0 < n) (hn : n ≤ fuel) :
    natDigitsRevAux fuel n ≠ [] := by
  match fuel, n with
  | 0, n => omega
  | f + 1, 0 => omega
  | f + 1, m + 1 => simp [natDigitsRevAux]

theorem natDigitsRevAux_getLast (fuel : Nat) : ∀ n : Nat, 0 < n → n ≤ fuel →
    ∃ c, (natDigitsRevAux fuel n).getLast? = some c ∧ c ≠ '0' := by
  induction fuel with
  | zero => intro n h1 h2; omega
  | succ f ih =>
      intro n hpos hn
      match n with
      | 0 => omega
      | m + 1 =>
          by_cases hq : (m + 1) / 10 = 0
          · have hlt : m + 1 < 10 := by
              rcases Nat.lt_or_ge (m + 1) 10 with h | h
              · exact h
              · exact absurd hq (by
                  have := Nat.div_le_div_right (c := 10) h
                  simp at this; omega)
            refine ⟨Nat.digitChar ((m + 1) % 10), ?_, ?_⟩
            · simp [natDigitsRevAux, hq, natDigitsRevAux_zero]
            · have : (m + 1) % 10 = m + 1 := Nat.mod_eq_of_lt hlt
              rw [this]
              exact digitChar_ne_zero_char _ hlt hpos
          · have hqpos : 0 < (m + 1) / 10 := Nat.pos_of_ne_zero hq
            have hdiv : (m + 1) / 10 ≤ f := by
              have h1 : (m + 1) / 10 < m + 1 := Nat.div_lt_self (Nat.succ_pos m) (by omega)
              omega
            obtain ⟨c, hc, hcne⟩ := ih ((m + 1) / 10) hqpos hdiv
            refine ⟨c, ?_, hcne⟩
            exact List.mem_getLast?_cons hc

/-- Full characterization of the embedded `sprintf("%" PRIu64)`: the output
parses back to the input value, is nonempty, consists of ASCII digits only,
has no leading zero for nonzero values, and is `"0"` at zero. -/
theorem natToDecimal_spec (n : Nat) :
    parseDecimal (natToDecimal n).data = n
    ∧ (natToDecimal n).data ≠ []
    ∧ (∀ c ∈ (natToDecimal n).data, c.isDigit = true)
    ∧ (n ≠ 0 → (natToDecimal n).data.head? ≠ some '0')
    ∧ (n = 0 → natToDecimal n = "0") := by
  by_cases h0 : n = 0
  · subst h0
    refine ⟨by decide, by decide, ?_, by simp, fun _ => rfl⟩
    intro c hc
    simp [natToDecimal] at hc
    simp [hc]
  · have hpos : 0 < n := Nat.pos_of_ne_zero h0
    have hdata : (natToDecimal n).data = (natDigitsRevAux n n).reverse := by
      simp [natToDecimal, h0]
    refine ⟨?_, ?_, ?_, ?_, fun h => absurd h h0⟩
    · rw [hdata]
      unfold parseDecimal
      rw [List.foldl_reverse]
      exact natDigitsRevAux_foldr n n le_rfl
    · rw [hdata]
      simp only [ne_eq, List.reverse_eq_nil_iff]
      exact natDigitsRevAux_ne_nil n n hpos le_rfl
    · rw [hdata]
      intro c hc
      exact natDigitsRevAux_digits n n c (List.mem_reverse.mp hc)
    · intro _
      rw [hdata, List.head?_reverse]
      obtain ⟨c, hc, hcne⟩ := natDigitsRevAux_getLast n n hpos le_rfl
      rw [hc]
      simpa using hcne

/-! ## Data model

The host types the element touches, embedded with exactly the fields the
element reads or writes.  `GstBaseTextOverlay.rest` abstracts every other
field of the base-class instance (properties, layout state, …): the element
never reads or writes them, which the frame theorems make explicit. -/

/-- Vertical alignment values of `GstBaseTextOverlayVAlign`. -/
inductive Valign
  | baseline | bottom | top | position | center | absolute
deriving DecidableEq

/-- Horizontal alignment values of `GstBaseTextOverlayHAlign`. -/
inductive Halign
  | left | center | right | unpositioned | position
deriving DecidableEq

/-- The base-class instance state visible to this element: the two alignment
fields and the `need_render` flag it writes, plus `text` (referenced only by
a commented-out line in the source) and `rest`, an abstraction of all other
base-class fields. -/
structure GstBaseTextOverlay where
  valign : Valign
  halign : Halign
  need_render : Bool
  text : String
  rest : Nat
deriving DecidableEq

/-- Opaque video-frame handle (`GstBuffer *`); the element never reads it. -/
structure GstBuffer where
  id : Nat
deriving DecidableEq

/-- A `struct timeval` as filled in by a successful `gettimeofday`. -/
structure Timeval where
  tv_sec : Nat
  tv_usec : Nat
deriving DecidableEq

/-- Outcome of a `gettimeofday(&tp, NULL)` call: the return code and the
(possibly unmodified) `timeval`.  The code only inspects `tp` when `ret = 0`. -/
structure GettimeofdayResult where
  ret : Int
  tp : Timeval
deriving DecidableEq

/-! ## The text-generation callback

Embedding of `gst_epoch_overlay_get_text` (gstepochoverlay.c:70-89).  The C
body reads the clock, formats either the epoch-microsecond value or the
literal failure message into `buf`, sets `overlay->need_render = TRUE`, and
returns `g_strdup (buf)`.  The embedding takes the clock outcome as an
explicit argument and returns the string together with the updated overlay
state. -/

def gst_epoch_overlay_get_text (overlay : GstBaseTextOverlay)
    (video_frame : GstBuffer) (clock : GettimeofdayResult) :
    String × GstBaseTextOverlay :=
  let buf : String :=
    if clock.ret = 0 then
      -- unsigned long long micro = tp.tv_sec;
      -- micro = micro * 1000000L + tp.tv_usec;
      -- sprintf(buf, "%" PRIu64, micro);
      natToDecimal (((clock.tp.tv_sec % UINT64_SIZE) * 1000000
        + clock.tp.tv_usec) % UINT64_SIZE)
    else
      "gettimeofday failed"
  (buf, { overlay with need_render := true })

/-! ## Pango rendering-context model and class initialization -/

inductive PangoDirection
  | ltr | rtl | ttbLtr | ttbRtl | weakLtr | weakRtl | neutral
deriving DecidableEq

inductive PangoStyle | normal | oblique | italic
deriving DecidableEq

inductive PangoVariant | normal | smallCaps
deriving DecidableEq

inductive PangoWeight | thin | light | normal | bold | heavy
deriving DecidableEq

inductive PangoStretch | condensed | normal | expanded
deriving DecidableEq

structure PangoFontDescription where
  family : String
  style : PangoStyle
  variant : PangoVariant
  weight : PangoWeight
  stretch : PangoStretch
  size : Nat
deriving DecidableEq

def PANGO_SCALE : Nat := 1024

/-- `pango_font_description_new`: a fresh description with Pango's defaults. -/
def pango_font_description_new : PangoFontDescription :=
  { family := "", style := .normal, variant := .normal, weight := .normal,
    stretch := .normal, size := 0 }

def pango_font_description_set_family_static
    (fd : PangoFontDescription) (family : String) : PangoFontDescription :=
  { fd with family := family }

def pango_font_description_set_style
    (fd : PangoFontDescription) (style : PangoStyle) : PangoFontDescription :=
  { fd with style := style }

def pango_font_description_set_variant
    (fd : PangoFontDescription) (variant : PangoVariant) : PangoFontDescription :=
  { fd with variant := variant }

def pango_font_description_set_weight
    (fd : PangoFontDescription) (weight : PangoWeight) : PangoFontDescription :=
  { fd with weight := weight }

def pango_font_description_set_stretch
    (fd : PangoFontDescription) (stretch : PangoStretch) : PangoFontDescription :=
  { fd with stretch := stretch }

def pango_font_description_set_size
    (fd : PangoFontDescription) (size : Nat) : PangoFontDescription :=
  { fd with size := size }

/-- The shared Pango rendering context owned by the base class. -/
structure PangoContext where
  language : String
  base_dir : PangoDirection
  font_description : PangoFontDescription
deriving DecidableEq

def pango_context_set_language (ctx : PangoContext) (lang : String) :
    PangoContext := { ctx with language := lang }

def pango_context_set_base_dir (ctx : PangoContext) (dir : PangoDirection) :
    PangoContext := { ctx with base_dir := dir }

def pango_context_set_font_description (ctx : PangoContext)
    (fd : PangoFontDescription) : PangoContext :=
  { ctx with font_description := fd }

/-- Identifier for a function installed into a class vtable slot. -/
inductive HandlerSlot
  | unset
  | epochOverlayFinalize
  | epochOverlaySetProperty
  | epochOverlayGetProperty
  | epochOverlayGetText
deriving DecidableEq

structure ElementMetadata where
  longname : String
  classification : String
  description : String
  author : String
deriving DecidableEq

/-- The class structure as `gst_epoch_overlay_class_init` sees it: the three
GObject vtable slots and the metadata it installs, the `get_text` slot of the
base text-overlay class, and the shared Pango lock and context. -/
structure GstEpochOverlayClassState where
  finalize_slot : HandlerSlot
  set_property_slot : HandlerSlot
  get_property_slot : HandlerSlot
  metadata : Option ElementMetadata
  get_text_slot : HandlerSlot
  pango_lock_held : Bool
  pango_context : PangoContext
deriving DecidableEq

/-- Events on the shared Pango lock/context, in program order, as emitted by
`gst_epoch_overlay_class_init`. -/
inductive ClassInitAction
  | mutexLock
  | mutexUnlock
  | setLanguage (lang : String)
  | setBaseDir (dir : PangoDirection)
  | setFontDescription (fd : PangoFontDescription)
deriving DecidableEq

/-- Whether an action mutates the shared rendering context. -/
def ClassInitAction.isContextMutation : ClassInitAction → Bool
  | .mutexLock => false
  | .mutexUnlock => false
  | _ => true

/-- Lock discipline checker: starting from the given held state, every lock
is taken un-held, every unlock and every context mutation happens with the
lock held, and the lock is not held when the trace ends. -/
def lockDisciplineOk : Bool → List ClassInitAction → Bool
  | held, [] => !held
  | held, .mutexLock :: rest => !held && lockDisciplineOk true rest
  | held, .mutexUnlock :: rest => held && lockDisciplineOk false rest
  | held, _ :: rest => held && lockDisciplineOk held rest

def epochOverlayMetadata : ElementMetadata :=
  { longname := "Epoch overlay"
    classification := "Filter/Editor/Video"
    description :=
      "Overlays the current time in microseconds from the unix epoch on a video stream"
    author :=
      "Tim-Philipp Mueller <tim@centricular.net> with modifications from Konstantinos Sofokleous <kostas@epoch.com>" }

/-- Embedding of `gst_epoch_overlay_class_init` (gstepochoverlay.c:91-130):
install the vtable handlers and metadata, then under the shared Pango lock
set language, base direction and a fixed font description on the shared
context.  Returns the updated class state and the trace of lock/context
events in program order. -/
def gst_epoch_overlay_class_init (klass : GstEpochOverlayClassState) :
    GstEpochOverlayClassState × List ClassInitAction :=
  let klass := { klass with
    finalize_slot := .epochOverlayFinalize
    set_property_slot := .epochOverlaySetProperty
    get_property_slot := .epochOverlayGetProperty }
  let klass := { klass with metadata := some epochOverlayMetadata }
  let klass := { klass with get_text_slot := .epochOverlayGetText }
  -- g_mutex_lock (gsttextoverlay_class->pango_lock);
  let klass := { klass with pango_lock_held := true }
  let context := klass.pango_context
  let context := pango_context_set_language context "en_US"
  let context := pango_context_set_base_dir context .ltr
  let font_description := pango_font_description_new
  let font_description :=
    pango_font_description_set_family_static font_description "Courier"
  let font_description := pango_font_description_set_style font_description .normal
  let font_description := pango_font_description_set_variant font_description .normal
  let font_description := pango_font_description_set_weight font_description .normal
  let font_description := pango_font_description_set_stretch font_description .normal
  let font_description :=
    pango_font_description_set_size font_description (50 * PANGO_SCALE)
  let context := pango_context_set_font_description context font_description
  let klass := { klass with pango_context := context }
  -- g_mutex_unlock (gsttextoverlay_class->pango_lock);
  let klass := { klass with pango_lock_held := false }
  (klass,
    [.mutexLock, .setLanguage "en_US", .setBaseDir .ltr,
     .setFontDescription font_description, .mutexUnlock])

/-! ## Instance initialization and property handlers -/

/-- Embedding of `gst_epoch_overlay_init` (gstepochoverlay.c:141-149). -/
def gst_epoch_overlay_init (overlay : GstBaseTextOverlay) : GstBaseTextOverlay :=
  { overlay with valign := .top, halign := .left }

/-- An opaque `GValue`. -/
structure GValue where
  raw : Nat
deriving DecidableEq

/-- Diagnostics the handlers can emit: `G_OBJECT_WARN_INVALID_PROPERTY_ID`. -/
inductive Diagnostic
  | warnInvalidPropertyId (prop_id : Nat)
deriving DecidableEq

/-- Embedding of `gst_epoch_overlay_set_property` (gstepochoverlay.c:152-163):
under the object lock, the switch has only a `default` branch, which warns
about the property id; the instance state and the value are untouched. -/
def gst_epoch_overlay_set_property (overlay : GstBaseTextOverlay)
    (prop_id : Nat) (value : GValue) : GstBaseTextOverlay × List Diagnostic :=
  (overlay, [.warnInvalidPropertyId prop_id])

/-- Embedding of `gst_epoch_overlay_get_property` (gstepochoverlay.c:166-177):
under the object lock, the switch has only a `default` branch, which warns
about the property id; the instance state and the out-value are untouched. -/
def gst_epoch_overlay_get_property (overlay : GstBaseTextOverlay)
    (prop_id : Nat) (value : GValue) :
    GstBaseTextOverlay × GValue × List Diagnostic :=
  (overlay, value, [.warnInvalidPropertyId prop_id])

/-! ## Claim theorems -/

/-- Fixed font description installed by class initialization. -/
def epochOverlayFontDefaults : PangoFontDescription :=
  { family := "Courier", style := .normal, variant := .normal,
    weight := .normal, stretch := .normal, size := 50 * PANGO_SCALE }

/-- Claim C1: for every successful clock reading with seconds `s` and
microseconds-fraction `u`, `gst_epoch_overlay_get_text` returns the ASCII
decimal numeral of the unsigned 64-bit value `s * 1000000 + u`, digits only,
with no leading zeros (except the single digit for 0); in particular
`(1, 500000)` yields `"1500000"` and `(0, 0)` yields `"0"`. -/
theorem get_text_success_decimal (s u : Nat) (overlay : GstBaseTextOverlay)
    (frame : GstBuffer) (hu : u < 1000000)
    (hbound : s * 1000000 + u < UINT64_SIZE) :
    parseDecimal ((gst_epoch_overlay_get_text overlay frame ⟨0, ⟨s, u⟩⟩).1).data
      = s * 1000000 + u
    ∧ ((gst_epoch_overlay_get_text overlay frame ⟨0, ⟨s, u⟩⟩).1).data ≠ []
    ∧ (∀ c ∈ ((gst_epoch_overlay_get_text overlay frame ⟨0, ⟨s, u⟩⟩).1).data,
        c.isDigit = true)
    ∧ (s * 1000000 + u ≠ 0 →
        ((gst_epoch_overlay_get_text overlay frame ⟨0, ⟨s, u⟩⟩).1).data.head?
          ≠ some '0')
    ∧ (s * 1000000 + u = 0 →
        (gst_epoch_overlay_get_text overlay frame ⟨0, ⟨s, u⟩⟩).1 = "0")
    ∧ (gst_epoch_overlay_get_text overlay frame ⟨0, ⟨1, 500000⟩⟩).1 = "1500000"
    ∧ (gst_epoch_overlay_get_text overlay frame ⟨0, ⟨0, 0⟩⟩).1 = "0" := by
  have hval : ((s % UINT64_SIZE) * 1000000 + u) % UINT64_SIZE
      = s * 1000000 + u := by
    rw [Nat.add_mod, Nat.mod_mul_mod, ← Nat.add_mod, Nat.mod_eq_of_lt hbound]
  have hstr : (gst_epoch_overlay_get_text overlay frame ⟨0, ⟨s, u⟩⟩).1
      = natToDecimal (s * 1000000 + u) := by
    simp [gst_epoch_overlay_get_text, hval]
  obtain ⟨hparse, hne, hdig, hlead, hzero⟩ := natToDecimal_spec (s * 1000000 + u)
  rw [hstr]
  exact ⟨hparse, hne, hdig, hlead, hzero, rfl, rfl⟩

theorem get_text_success_decimal_witness :
    500000 < 1000000
    ∧ 1 * 1000000 + 500000 < UINT64_SIZE
    ∧ parseDecimal ((gst_epoch_overlay_get_text ⟨.top, .left, false, "", 0⟩
        ⟨0⟩ ⟨0, ⟨1, 500000⟩⟩).1).data = 1 * 1000000 + 500000 :=
  ⟨by decide, by decide,
    (get_text_success_decimal 1 500000 ⟨.top, .left, false, "", 0⟩ ⟨0⟩
      (by decide) (by decide)).1⟩

/-- Claim C2: when `gettimeofday` returns a nonzero result,
`gst_epoch_overlay_get_text` returns exactly `"gettimeofday failed"`, and
the only effect on the overlay is setting `need_render` — the failure is
absorbed locally, never surfaced to the caller as anything but that text. -/
theorem get_text_failure_literal (overlay : GstBaseTextOverlay)
    (frame : GstBuffer) (ret : Int) (tp : Timeval) (hret : ret ≠ 0) :
    (gst_epoch_overlay_get_text overlay frame ⟨ret, tp⟩).1
      = "gettimeofday failed"
    ∧ (gst_epoch_overlay_get_text overlay frame ⟨ret, tp⟩).2
      = { overlay with need_render := true } := by
  refine ⟨?_, rfl⟩
  simp [gst_epoch_overlay_get_text, hret]

theorem get_text_failure_literal_witness :
    (-1 : Int) ≠ 0
    ∧ (gst_epoch_overlay_get_text ⟨.top, .left, false, "", 0⟩ ⟨0⟩
        ⟨-1, ⟨0, 0⟩⟩).1 = "gettimeofday failed" :=
  ⟨by decide,
    (get_text_failure_literal ⟨.top, .left, false, "", 0⟩ ⟨0⟩ (-1) ⟨0, 0⟩
      (by decide)).1⟩

/-- Claim C3: every invocation of `gst_epoch_overlay_get_text`, on both the
success and the clock-failure branch, sets `need_render` to true and leaves
every other field of the overlay state unchanged. -/
theorem get_text_sets_need_render (overlay : GstBaseTextOverlay)
    (frame : GstBuffer) (clock : GettimeofdayResult) :
    (gst_epoch_overlay_get_text overlay frame clock).2
      = { overlay with need_render := true }
    ∧ (gst_epoch_overlay_get_text overlay frame clock).2.need_render = true
    ∧ (gst_epoch_overlay_get_text overlay frame clock).2.valign = overlay.valign
    ∧ (gst_epoch_overlay_get_text overlay frame clock).2.halign = overlay.halign
    ∧ (gst_epoch_overlay_get_text overlay frame clock).2.text = overlay.text
    ∧ (gst_epoch_overlay_get_text overlay frame clock).2.rest = overlay.rest :=
  ⟨rfl, rfl, rfl, rfl, rfl, rfl⟩

/-- Claim C4: for every frame handle and clock outcome, the returned string
is nonempty and well-formed: either an all-digit numeral whose value fits in
64 unsigned bits with no leading zero (except `"0"` itself), or the fixed
literal `"gettimeofday failed"`. -/
theorem get_text_wellformed (overlay : GstBaseTextOverlay) (frame : GstBuffer)
    (clock : GettimeofdayResult) :
    (gst_epoch_overlay_get_text overlay frame clock).1 ≠ ""
    ∧ (((∀ c ∈ ((gst_epoch_overlay_get_text overlay frame clock).1).data,
          c.isDigit = true)
        ∧ parseDecimal ((gst_epoch_overlay_get_text overlay frame clock).1).data
            < UINT64_SIZE
        ∧ ((gst_epoch_overlay_get_text overlay frame clock).1 ≠ "0" →
            ((gst_epoch_overlay_get_text overlay frame clock).1).data.head?
              ≠ some '0'))
      ∨ (gst_epoch_overlay_get_text overlay frame clock).1
          = "gettimeofday failed") := by
  by_cases h : clock.ret = 0
  · have hstr : (gst_epoch_overlay_get_text overlay frame clock).1
        = natToDecimal (((clock.tp.tv_sec % UINT64_SIZE) * 1000000
            + clock.tp.tv_usec) % UINT64_SIZE) := by
      simp [gst_epoch_overlay_get_text, h]
    obtain ⟨hparse, hne, hdig, hlead, hzero⟩ :=
      natToDecimal_spec (((clock.tp.tv_sec % UINT64_SIZE) * 1000000
        + clock.tp.tv_usec) % UINT64_SIZE)
    rw [hstr]
    refine ⟨?_, Or.inl ⟨hdig, ?_, ?_⟩⟩
    · intro hcontr
      exact hne (congrArg String.data hcontr)
    · rw [hparse]
      exact Nat.mod_lt _ (by decide)
    · intro hne0
      refine hlead ?_
      intro hv0
      exact hne0 (hzero hv0)
  · have hstr : (gst_epoch_overlay_get_text overlay frame clock).1
        = "gettimeofday failed" := by
      simp [gst_epoch_overlay_get_text, h]
    rw [hstr]
    exact ⟨by decide, Or.inr rfl⟩

/-- Claim C5: class initialization leaves the shared Pango context with
exactly the fixed defaults — language `"en_US"`, left-to-right base
direction, and a font description Courier/normal/normal/normal/normal of
size `50 * PANGO_SCALE` — and its event trace performs each context
mutation exactly once. -/
theorem class_init_font_defaults (klass : GstEpochOverlayClassState) :
    (gst_epoch_overlay_class_init klass).1.pango_context
      = { language := "en_US", base_dir := .ltr,
          font_description := epochOverlayFontDefaults }
    ∧ (gst_epoch_overlay_class_init klass).2
      = [.mutexLock, .setLanguage "en_US", .setBaseDir .ltr,
         .setFontDescription epochOverlayFontDefaults, .mutexUnlock]
    ∧ ((gst_epoch_overlay_class_init klass).2.filter
        ClassInitAction.isContextMutation).length = 3 :=
  ⟨rfl, rfl, rfl⟩

/-- Claim C6: on the single execution path of class initialization the
Pango lock is acquired before any mutation of the shared context, every
mutation happens with the lock held, the lock is released before the
function returns, and the function does not exit holding it. -/
theorem class_init_lock_discipline (klass : GstEpochOverlayClassState) :
    lockDisciplineOk false (gst_epoch_overlay_class_init klass).2 = true
    ∧ (gst_epoch_overlay_class_init klass).1.pango_lock_held = false :=
  ⟨rfl, rfl⟩

/-- Claim C7: instance initialization sets the inherited vertical alignment
to top and the horizontal alignment to left, and leaves every other
inherited field unchanged. -/
theorem init_sets_alignment (overlay : GstBaseTextOverlay) :
    (gst_epoch_overlay_init overlay).valign = .top
    ∧ (gst_epoch_overlay_init overlay).halign = .left
    ∧ (gst_epoch_overlay_init overlay).need_render = overlay.need_render
    ∧ (gst_epoch_overlay_init overlay).text = overlay.text
    ∧ (gst_epoch_overlay_init overlay).rest = overlay.rest :=
  ⟨rfl, rfl, rfl, rfl, rfl⟩

/-- Claim C8: for every property identifier, `set_property` and
`get_property` emit the invalid-property diagnostic and leave the instance
state (and, for `get_property`, the out-value) completely unchanged; both
are total functions, so neither is fatal. -/
theorem property_handlers_warn_and_preserve (overlay : GstBaseTextOverlay)
    (prop_id : Nat) (value : GValue) :
    gst_epoch_overlay_set_property overlay prop_id value
      = (overlay, [.warnInvalidPropertyId prop_id])
    ∧ gst_epoch_overlay_get_property overlay prop_id value
      = (overlay, value, [.warnInvalidPropertyId prop_id]) :=
  ⟨rfl, rfl⟩

/-- Claim C9: class initialization is idempotent on the class state —
running it on its own output yields the same final state as running it
once. -/
theorem class_init_idempotent (klass : GstEpochOverlayClassState) :
    (gst_epoch_overlay_class_init (gst_epoch_overlay_class_init klass).1).1
      = (gst_epoch_overlay_class_init klass).1 :=
  rfl

/-- Claim C10: the returned string is a deterministic function of the clock
outcome alone — it is independent of the overlay state, of the frame-handle
argument, and of any prior invocation (whose only effect is on
`need_render`, which the text computation never reads). -/
theorem get_text_depends_only_on_clock (o1 o2 : GstBaseTextOverlay)
    (f1 f2 : GstBuffer) (clock prior : GettimeofdayResult) :
    (gst_epoch_overlay_get_text o1 f1 clock).1
      = (gst_epoch_overlay_get_text o2 f2 clock).1
    ∧ (gst_epoch_overlay_get_text
        (gst_epoch_overlay_get_text o1 f1 prior).2 f2 clock).1
      = (gst_epoch_overlay_get_text o2 f2 clock).1 :=
  ⟨rfl, rfl⟩

end EpochOverlay
